import Mathlib

/-!
Verification of the SEO analysis engine of `server/services/seo-analyzer.ts`
(class `SEOAnalyzer`), as a shallow embedding.

JavaScript strings are modelled as `List Char` (`Str`): the string-level
operations the analyzer uses (`trim`, `split`, `join`, `toLowerCase`,
`startsWith`) are given executable character-list models mirroring their
ECMAScript behaviour on the character ranges the analyzer handles.
Network effects (axios GET/HEAD) are modelled by passing the transport
outcome, or a probe oracle, as an explicit argument; `new URL(...)`
resolution (an external runtime facility that can throw) is modelled as an
abstract `Str → Str → Option Str` argument where `none` stands for a thrown
`TypeError`.
-/

namespace NodeSEO

/-- JavaScript strings, modelled as lists of characters. -/
abbrev Str := List Char

/-- Model of `String.prototype.trim`: drop whitespace at both ends. -/
def trim (s : Str) : Str :=
  ((s.dropWhile Char.isWhitespace).reverse.dropWhile Char.isWhitespace).reverse

/-- Model of `String.prototype.split` with a single-character separator:
keeps empty segments, and `"".split(sep)` is `[""]`. -/
def splitOn (p : Char → Bool) : Str → List Str
  | [] => [[]]
  | c :: rest =>
    if p c then [] :: splitOn p rest
    else
      match splitOn p rest with
      | [] => [[c]]
      | seg :: segs => (c :: seg) :: segs

/-- Model of `String.prototype.toLowerCase` (ASCII range). -/
def lowerStr (s : Str) : Str := s.map Char.toLower

/-- One robots.txt rule, `{userAgent, directive, path}` as pushed by
`parseRobotsTxt`. -/
structure Rule where
  userAgent : Str
  directive : Str
  path : Str
deriving DecidableEq

/-- The loop body of `parseRobotsTxt` (seo-analyzer.ts lines 309-325):
processes the split lines in order, threading the current user-agent group. -/
def processLines : List Str → Str → List Rule
  | [], _ => []
  | line :: rest, currentUserAgent =>
    let trimmed := trim line
    if trimmed = [] ∨ ['#'].isPrefixOf trimmed then
      processLines rest currentUserAgent
    else
      match splitOn (fun c => c = ':') trimmed with
      | [] => processLines rest currentUserAgent
      | directive :: pathParts =>
        let path := trim (List.intercalate [':'] pathParts)
        if lowerStr directive = "user-agent".toList then
          processLines rest path
        else if lowerStr directive ∈
            ["allow".toList, "disallow".toList, "sitemap".toList] then
          ⟨currentUserAgent, lowerStr directive, path⟩ :: processLines rest currentUserAgent
        else
          processLines rest currentUserAgent

/-- `parseRobotsTxt` (seo-analyzer.ts lines 301-328): empty content is falsy
and yields no rules; otherwise split on newline and process the lines with
initial group `"*"`. -/
def parseRobotsTxt (content : Str) : List Rule :=
  if content = [] then []
  else processLines (splitOn (fun c => c = '\n') content) "*".toList

/-! ## Link analyzer and liveness probing (seo-analyzer.ts lines 93-106, 330-391) -/

/-- One entry of the `allLinks` array built by `analyzeLinks` (lines 334-358):
the href already resolved to an absolute URL, with its classification. -/
structure LinkEntry where
  url : Str
  text : Str
  isExternal : Bool
  nofollow : Bool
deriving DecidableEq

/-- An entry of the `broken` array (lines 365-376). -/
structure BrokenLink where
  url : Str
  text : Str
  status : Nat
  error : Option Str
deriving DecidableEq

/-- An entry of the reported `externalLinks` array (lines 384-389). -/
structure ExternalLink where
  url : Str
  text : Str
  nofollow : Bool
  status : Nat
deriving DecidableEq

/-- The value returned by `analyzeLinks` (lines 379-390). -/
structure LinkGraphFacts where
  total : Nat
  internal : Nat
  external : Nat
  broken : List BrokenLink
  externalLinks : List ExternalLink
deriving DecidableEq

/-- Outcome of one `axios.head` probe: either the HTTP layer answered with a
status (axios never throws here thanks to `validateStatus: () => true`), or
the transport failed with an error message. -/
inductive ProbeResult where
  | ok (status : Nat)
  | fail (message : Str)
deriving DecidableEq

/-- The `{status, error}` record returned by `checkLinkStatus`. -/
structure LinkStatus where
  status : Nat
  error : Option Str
deriving DecidableEq

/-- `checkLinkStatus` (lines 93-106): a total function — the catch block turns
every transport failure into `{status: 0, error: message}`, so it never
raises. -/
def checkLinkStatus (r : ProbeResult) : LinkStatus :=
  match r with
  | .ok status => ⟨status, none⟩
  | .fail message => ⟨0, some message⟩

/-- The broken-recording condition of line 369:
`result.status >= 400 || result.status === 0`. -/
def isBroken (s : LinkStatus) : Bool :=
  decide (400 ≤ s.status) || decide (s.status = 0)

/-- `internalLinks` (line 360). -/
def internalOf (allLinks : List LinkEntry) : List LinkEntry :=
  allLinks.filter (fun l => !l.isExternal)

/-- `externalLinks` (line 361). -/
def externalOf (allLinks : List LinkEntry) : List LinkEntry :=
  allLinks.filter (fun l => l.isExternal)

/-- `linksToCheck` (line 364): all internal links plus the first 10 external
links. -/
def linksToCheck (allLinks : List LinkEntry) : List LinkEntry :=
  internalOf allLinks ++ (externalOf allLinks).take 10

/-- The links actually probed: `linksToCheck.slice(0, 20)` (line 367). -/
def checkedLinks (allLinks : List LinkEntry) : List LinkEntry :=
  (linksToCheck allLinks).take 20

/-- `analyzeLinks` (lines 330-391) from the `allLinks` array onward, the
network probe passed explicitly: for each checked link run `checkLinkStatus`
and record it as broken when `isBroken`; aggregate counts cover every link. -/
def analyzeLinks (allLinks : List LinkEntry) (probe : Str → ProbeResult) :
    LinkGraphFacts :=
  let internalLinks := internalOf allLinks
  let externalLinks := externalOf allLinks
  let broken := (checkedLinks allLinks).filterMap (fun link =>
    let result := checkLinkStatus (probe link.url)
    if isBroken result then
      some ⟨link.url, link.text, result.status, result.error⟩
    else none)
  { total := allLinks.length
    internal := internalLinks.length
    external := externalLinks.length
    broken := broken
    externalLinks := externalLinks.map (fun l => ⟨l.url, l.text, l.nofollow, 200⟩) }

/-! ## Scorer (seo-analyzer.ts lines 393-494) -/

/-- The meta-tag fact bundle returned by `extractMetaTags` (lines 132-145). -/
structure MetaTagsFacts where
  title : Option Str
  titleLength : Nat
  description : Option Str
  descriptionLength : Nat
  keywords : Option Str
  keywordsLength : Nat
  canonical : Option Str
  canonicalMatches : Bool
  robots : Option Str
  robotsValid : Bool
  htmlLang : Option Str
  maxImagePreview : Bool
deriving DecidableEq

/-- Schema facts (lines 295-298); the scorer reads only `found`. -/
structure SchemaFacts where
  found : Bool
deriving DecidableEq

/-- Robots.txt facts (lines 574-578). -/
structure RobotsTxtFacts where
  found : Bool
  content : Option Str
  rules : List Rule
deriving DecidableEq

/-- Breadcrumb facts (lines 214-256); the scorer reads only `found`. -/
structure BreadcrumbFacts where
  found : Bool
deriving DecidableEq

/-- The slice of the analysis bundle that `calculateScore` reads. -/
structure ScoreInput where
  metaTags : MetaTagsFacts
  schema : SchemaFacts
  robotsTxt : RobotsTxtFacts
  links : LinkGraphFacts
  breadcrumbs : BreadcrumbFacts
deriving DecidableEq

/-- The `{score, issues, warnings, passed}` record returned by
`calculateScore`. -/
structure ScoreFacts where
  score : Nat
  issues : Nat
  warnings : Nat
  passed : Nat
deriving DecidableEq

/-- JavaScript truthiness of a nullable string: `null` and `""` are falsy. -/
def truthy : Option Str → Bool
  | none => false
  | some s => !s.isEmpty

/-- Per-signal contribution `(points, issues, warnings, passed)`.
Title block (lines 400-410). -/
def titleEval (m : MetaTagsFacts) : Nat × Nat × Nat × Nat :=
  if truthy m.title then
    if 50 ≤ m.titleLength ∧ m.titleLength ≤ 60 then (10, 0, 0, 1) else (5, 0, 1, 0)
  else (0, 1, 0, 0)

/-- Description block (lines 413-423). -/
def descriptionEval (m : MetaTagsFacts) : Nat × Nat × Nat × Nat :=
  if truthy m.description then
    if 150 ≤ m.descriptionLength ∧ m.descriptionLength ≤ 160 then (10, 0, 0, 1)
    else (5, 0, 1, 0)
  else (0, 1, 0, 0)

/-- Canonical block (lines 426-435). -/
def canonicalEval (m : MetaTagsFacts) : Nat × Nat × Nat × Nat :=
  if truthy m.canonical then
    if m.canonicalMatches then (5, 0, 0, 1) else (0, 0, 1, 0)
  else (0, 0, 1, 0)

/-- Robots-meta block (lines 438-443). -/
def robotsMetaEval (m : MetaTagsFacts) : Nat × Nat × Nat × Nat :=
  if truthy m.robots && m.robotsValid then (5, 0, 0, 1) else (0, 0, 1, 0)

/-- HTML-lang block (lines 446-451). -/
def htmlLangEval (m : MetaTagsFacts) : Nat × Nat × Nat × Nat :=
  if truthy m.htmlLang then (5, 0, 0, 1) else (0, 0, 1, 0)

/-- Schema block (lines 454-459). -/
def schemaEval (s : SchemaFacts) : Nat × Nat × Nat × Nat :=
  if s.found then (15, 0, 0, 1) else (0, 1, 0, 0)

/-- Robots.txt block (lines 462-467). -/
def robotsTxtEval (r : RobotsTxtFacts) : Nat × Nat × Nat × Nat :=
  if r.found then (5, 0, 0, 1) else (0, 0, 1, 0)

/-- Broken-links block (lines 470-475): issues grow by the broken count. -/
def brokenLinksEval (l : LinkGraphFacts) : Nat × Nat × Nat × Nat :=
  if l.broken.length = 0 then (10, 0, 0, 1) else (0, l.broken.length, 0, 0)

/-- Breadcrumbs block (lines 478-483). -/
def breadcrumbsEval (b : BreadcrumbFacts) : Nat × Nat × Nat × Nat :=
  if b.found then (5, 0, 0, 1) else (0, 0, 1, 0)

/-- Model of `Math.round((score / 70) * 100)` (line 486) as exact
round-half-up on naturals: for the integer scores `0..70` arising here the
quotient is never a half-integer (its distance to one is at least `1/14`,
far above double-precision error), so the float computation agrees with the
exact rational rounding `⌊(score*100)/70 + 1/2⌋ = (200*score + 70) / 140`. -/
def normalizeTo100 (score : Nat) : Nat := (200 * score + 70) / 140

/-- `calculateScore` (lines 393-494): the nine independent accumulator blocks
summed component-wise, then normalized to 0-100 and clamped with
`Math.max(0, Math.min(100, ·))` (line 489). -/
def calculateScore (data : ScoreInput) : ScoreFacts :=
  let t := titleEval data.metaTags
  let d := descriptionEval data.metaTags
  let c := canonicalEval data.metaTags
  let r := robotsMetaEval data.metaTags
  let l := htmlLangEval data.metaTags
  let s := schemaEval data.schema
  let rt := robotsTxtEval data.robotsTxt
  let bl := brokenLinksEval data.links
  let bc := breadcrumbsEval data.breadcrumbs
  let score := t.1 + d.1 + c.1 + r.1 + l.1 + s.1 + rt.1 + bl.1 + bc.1
  let issues := t.2.1 + d.2.1 + c.2.1 + r.2.1 + l.2.1 + s.2.1 + rt.2.1 + bl.2.1 + bc.2.1
  let warnings :=
    t.2.2.1 + d.2.2.1 + c.2.2.1 + r.2.2.1 + l.2.2.1 + s.2.2.1 + rt.2.2.1 + bl.2.2.1 + bc.2.2.1
  let passed :=
    t.2.2.2 + d.2.2.2 + c.2.2.2 + r.2.2.2 + l.2.2.2 + s.2.2.2 + rt.2.2.2 + bl.2.2.2 + bc.2.2.2
  { score := max 0 (min 100 (normalizeTo100 score))
    issues := issues
    warnings := warnings
    passed := passed }

/-- The concrete fact bundle of the scoring example: title of length 55, no
description, canonical present and matching, robots meta `"index, follow"`,
htmlLang `"en"`, a schema found, robots.txt found, zero broken links, no
breadcrumbs. -/
def exampleBundle : ScoreInput :=
  { metaTags :=
      { title := some (List.replicate 55 'a')
        titleLength := 55
        description := none
        descriptionLength := 0
        keywords := none
        keywordsLength := 0
        canonical := some "https://example.com/".toList
        canonicalMatches := true
        robots := some "index, follow".toList
        robotsValid := true
        htmlLang := some "en".toList
        maxImagePreview := false }
    schema := { found := true }
    robotsTxt :=
      { found := true
        content := some "User-agent: *\nDisallow: /admin".toList
        rules := parseRobotsTxt "User-agent: *\nDisallow: /admin".toList }
    links := { total := 0, internal := 0, external := 0, broken := [], externalLinks := [] }
    breadcrumbs := { found := false } }

/-! ## Page fetcher (seo-analyzer.ts lines 49-81) -/

/-- What the HTTP layer hands back when the transport succeeds: the axios
response fields that `fetchPage` reads (`validateStatus: () => true`, so
every HTTP status reaches this point). `responseUrl` models
`response.request.res?.responseUrl` (`none` when undefined). -/
structure HttpResponse where
  status : Nat
  statusText : Str
  body : Str
  contentLengthHeader : Option Nat
  responseUrl : Option Str
deriving DecidableEq

/-- The `performance` record assembled by `fetchPage` (lines 70-76). -/
structure Performance where
  loadTime : Nat
  responseTime : Nat
  redirects : Nat
  ssl : Bool
  pageSize : Nat
deriving DecidableEq

/-- The `{html, performance}` value returned by `fetchPage`. -/
structure FetchOutcome where
  html : Str
  performance : Performance
deriving DecidableEq

/-- The two causes folded into the single
`Failed to fetch page: ...` error thrown at line 79: the explicit
`throw new Error(\x7bHTTP status: statusText\x7d)` of line 65, or a transport
error thrown by axios itself (DNS, connect, timeout). -/
inductive FetchError where
  | httpStatus (status : Nat) (statusText : Str)
  | transport (message : Str)
deriving DecidableEq

/-- `fetchPage` (lines 49-81), the transport outcome passed explicitly
(`Except.error` = axios threw at the transport layer) and the measured
elapsed time as `loadTime`. Mirrors the source: content length from the
header when present else the body length; an explicit error when
`status >= 400`; redirects `1` iff the final response URL differs from the
requested URL; `ssl` iff the url starts with `https://`. -/
def fetchPage (url : Str) (loadTime : Nat) (transport : Except Str HttpResponse) :
    Except FetchError FetchOutcome :=
  match transport with
  | .error e => .error (.transport e)
  | .ok response =>
    let contentLength :=
      match response.contentLengthHeader with
      | some n => n
      | none => response.body.length
    if 400 ≤ response.status then
      .error (.httpStatus response.status response.statusText)
    else
      .ok { html := response.body
            performance :=
              { loadTime := loadTime
                responseTime := loadTime
                redirects := if response.responseUrl ≠ some url then 1 else 0
                ssl := "https://".toList.isPrefixOf url
                pageSize := contentLength } }

/-! ## Canonical matching (seo-analyzer.ts lines 118-127) -/

/-- The `canonicalMatches` computation of `extractMetaTags` (lines 118-127).
`resolve href base` models `new URL(href, base).href` and `parse u` models
`new URL(u).href`; `none` models a thrown `TypeError`, which the catch block
turns into `false`. -/
def canonicalMatchesOf (canonical : Option Str) (originalUrl : Str)
    (resolve : Str → Str → Option Str) (parse : Str → Option Str) : Bool :=
  match canonical with
  | none => false
  | some href =>
    match resolve href originalUrl, parse originalUrl with
    | some canonicalUrl, some inputUrl => canonicalUrl == inputUrl
    | _, _ => false

/-! ## AMP classification and URL normalization
(seo-analyzer.ts lines 44-47, 534-559, 610-620) -/

/-- The document facts that the AMP branch of `analyzeWebsite` queries:
the attributes of the root `<html>` element and the hrefs of
`link[rel="canonical"]` / `link[rel="amphtml"]`, as exposed by cheerio. -/
structure Doc where
  htmlAttrs : List (Str × Str)
  canonicalHref : Option Str
  ampHtmlHref : Option Str
deriving DecidableEq

/-- `$('html').attr(name)`: the value of the named root attribute, or
undefined. -/
def htmlAttr (d : Doc) (name : Str) : Option Str :=
  (d.htmlAttrs.find? (fun p => p.1 == name)).map (·.2)

/-- `isAmpPage` (lines 44-47): the root element carries an `amp` or `⚡`
attribute. -/
def isAmpPage (d : Doc) : Bool :=
  (htmlAttr d "amp".toList).isSome || (htmlAttr d "⚡".toList).isSome

/-- URL normalization (line 537): prepend `https://` unless the input starts
with `http`. -/
def normalizeUrl (url : Str) : Str :=
  if "http".toList.isPrefixOf url then url else "https://".toList ++ url

/-- The slice of the returned analysis result that the claims inspect. -/
structure ResultSlice where
  url : Str
  isAmp : Bool
  ampUrl : Option Str
  regularUrl : Option Str
deriving DecidableEq

/-- The URL-normalization and AMP branch of `analyzeWebsite`
(lines 534-559 and result fields of lines 610-620). `resolve href base`
models `new URL(href, base).toString()` with `none` for a thrown
`TypeError`: in the AMP branch such a throw escapes to the outer catch and
aborts the whole analysis, hence the `Option` result. `detectedAmpUrl` is
the outcome of `detectAmpUrl` for the non-AMP branch. -/
def analyzeWebsiteSlice (inputUrl : Str) (d : Doc)
    (resolve : Str → Str → Option Str) (detectedAmpUrl : Option Str) :
    Option ResultSlice :=
  let normalizedUrl := normalizeUrl inputUrl
  if isAmpPage d then
    match d.canonicalHref with
    | some href =>
      match resolve href normalizedUrl with
      | some regular => some ⟨normalizedUrl, true, some normalizedUrl, some regular⟩
      | none => none
    | none => some ⟨normalizedUrl, true, some normalizedUrl, none⟩
  else
    some ⟨normalizedUrl, false, detectedAmpUrl, some normalizedUrl⟩

/-! ## Concrete inputs used by the example parts of the properties -/

/-- A link graph with 30 internal links followed by 15 external links, all
URLs distinct. -/
def exampleLinks : List LinkEntry :=
  (List.range 30).map (fun i => ⟨List.replicate (i + 1) 'a', [], false, false⟩)
  ++ (List.range 15).map (fun i => ⟨List.replicate (i + 1) 'b', [], true, false⟩)

/-- A probe oracle answering HTTP 200 everywhere. -/
def probeAllOk : Str → ProbeResult := fun _ => .ok 200

/-- A probe oracle that fails at the transport layer exactly on the external
URLs of `exampleLinks` (those containing `'b'`). -/
def probeFailExternal : Str → ProbeResult :=
  fun u => if 'b' ∈ u then .fail "timeout of 5000ms exceeded".toList else .ok 200

/-- An AMP document: root `<html amp>` attribute, a canonical link, and also
an `amphtml` link (which the AMP branch never consults). -/
def ampDoc : Doc :=
  { htmlAttrs := [("amp".toList, [])]
    canonicalHref := some "https://example.com/page".toList
    ampHtmlHref := some "https://example.com/page/amp/".toList }

/-- A document with no AMP marker and no link tags. -/
def plainDoc : Doc :=
  { htmlAttrs := [("lang".toList, "en".toList)]
    canonicalHref := none
    ampHtmlHref := none }

/-- An HTTP-layer 404 response for the primary fetch. -/
def notFoundResponse : HttpResponse :=
  { status := 404
    statusText := "Not Found".toList
    body := "<h1>404</h1>".toList
    contentLengthHeader := none
    responseUrl := some "https://example.com/missing".toList }

/-- An HTTP-layer 200 response whose final URL differs from the requested
URL (one redirect was followed). -/
def redirectedResponse : HttpResponse :=
  { status := 200
    statusText := "OK".toList
    body := "<html></html>".toList
    contentLengthHeader := some 13
    responseUrl := some "https://example.com/home".toList }

/-! ## Theorems -/

/-- Claim C1, counterexample: a response that arrives at the HTTP layer with
status 404 makes `fetchPage` raise (cause `httpStatus`), so it is not true
that fetchPage raises only on transport-level failures. -/
theorem fetchPage_http_error_raises :
    fetchPage "https://example.com/missing".toList 10 (.ok notFoundResponse)
      = .error (.httpStatus 404 "Not Found".toList) := rfl

/-- Claim C1 (amended): when the response arrives at the HTTP layer with
status below 400, `fetchPage` returns an outcome whose `html` is the raw
response body; it raises on transport-level failures and also whenever the
HTTP status is at least 400 (the explicit `throw` of line 65). -/
theorem fetchPage_behavior (url : Str) (loadTime : Nat)
    (transport : Except Str HttpResponse) :
    (∀ r, transport = .ok r → r.status < 400 →
        ∃ out, fetchPage url loadTime transport = .ok out ∧ out.html = r.body)
  ∧ (∀ r, transport = .ok r → 400 ≤ r.status →
        fetchPage url loadTime transport = .error (.httpStatus r.status r.statusText))
  ∧ (∀ e, transport = .error e →
        fetchPage url loadTime transport = .error (.transport e)) := by
  refine ⟨?_, ?_, ?_⟩
  · rintro r rfl hlt
    simp only [fetchPage]
    rw [if_neg (by omega)]
    exact ⟨_, rfl, rfl⟩
  · rintro r rfl hge
    simp only [fetchPage]
    rw [if_pos hge]
  · rintro e rfl
    rfl

/-- Claim C1 witness: instantiating `fetchPage_behavior` at a concrete 200
response. -/
theorem fetchPage_behavior_witness :
    ∃ out, fetchPage "https://example.com".toList 10 (.ok redirectedResponse) = .ok out
      ∧ out.html = redirectedResponse.body :=
  (fetchPage_behavior "https://example.com".toList 10 (.ok redirectedResponse)).1
    redirectedResponse rfl (by decide)

/-- Claim C2, counterexample: on the specified fact bundle `calculateScore`
does not return score 86 with 6 passed checks. -/
theorem calculateScore_example_refutes :
    ¬ ((calculateScore exampleBundle).score = 86 ∧
        (calculateScore exampleBundle).issues = 1 ∧
        (calculateScore exampleBundle).warnings = 1 ∧
        (calculateScore exampleBundle).passed = 6) := by decide

/-- Claim C2 (amended): on that bundle the raw points are
10+0+5+5+5+15+5+10+0 = 55, so `calculateScore` returns
score = round(55/70*100) = 79, issues = 1 (description), warnings = 1
(breadcrumbs), and passed = 7 (zero broken links is itself a passed
check). -/
theorem calculateScore_example_value :
    calculateScore exampleBundle = ⟨79, 1, 1, 7⟩ := by decide

/-- Claim C3: for every fact bundle the score lies in [0,100] and the
issues, warnings and passed tallies are nonnegative. -/
theorem calculateScore_range (data : ScoreInput) :
    0 ≤ (calculateScore data).score ∧ (calculateScore data).score ≤ 100 ∧
    0 ≤ (calculateScore data).issues ∧ 0 ≤ (calculateScore data).warnings ∧
    0 ≤ (calculateScore data).passed := by
  refine ⟨Nat.zero_le _, ?_, Nat.zero_le _, Nat.zero_le _, Nat.zero_le _⟩
  show max 0 (min 100 _) ≤ 100
  omega

/-- Helper: every rule ever appended by the parsing loop carries one of the
three recognized directives, lowercased — unrecognized directives are
ignored. -/
theorem mem_processLines_directive (lines : List Str) : ∀ (ua : Str) (r : Rule),
    r ∈ processLines lines ua →
    r.directive = "allow".toList ∨ r.directive = "disallow".toList ∨
      r.directive = "sitemap".toList := by
  induction lines with
  | nil => intro ua r h; simp [processLines] at h
  | cons line rest ih =>
    intro ua r h
    simp only [processLines] at h
    split at h
    · exact ih ua r h
    · split at h
      · exact ih ua r h
      · split at h
        · exact ih _ r h
        · split at h
          · rcases List.mem_cons.mp h with h1 | h1
            · subst h1
              rename_i hmem
              simpa using hmem
            · exact ih ua r h1
          · exact ih ua r h

/-- Claim C4: the robots.txt parser is line-oriented — blank lines and
`#`-comment lines are skipped, a `user-agent` line (case-insensitive) sets
the current group (which defaults to `*`), `allow`/`disallow`/`sitemap`
lines are appended in file order with the directive lowercased,
unrecognized directives are ignored, and the given three-line input parses
to exactly the two expected rules. -/
theorem parseRobotsTxt_spec :
    parseRobotsTxt "User-agent: *\nDisallow: /admin\nSitemap: /sitemap.xml".toList =
      [⟨"*".toList, "disallow".toList, "/admin".toList⟩,
       ⟨"*".toList, "sitemap".toList, "/sitemap.xml".toList⟩]
  ∧ (∀ line rest ua, trim line = [] →
        processLines (line :: rest) ua = processLines rest ua)
  ∧ (∀ line rest ua, ['#'].isPrefixOf (trim line) = true →
        processLines (line :: rest) ua = processLines rest ua)
  ∧ (∀ rest ua, processLines ("UsEr-AgEnt: Googlebot".toList :: rest) ua
        = processLines rest "Googlebot".toList)
  ∧ (∀ rest ua, processLines ("Crawl-delay: 10".toList :: rest) ua
        = processLines rest ua)
  ∧ (∀ rest ua, processLines ("DisAllow: /x".toList :: rest) ua
        = ⟨ua, "disallow".toList, "/x".toList⟩ :: processLines rest ua)
  ∧ (∀ content r, r ∈ parseRobotsTxt content →
        r.directive = "allow".toList ∨ r.directive = "disallow".toList ∨
          r.directive = "sitemap".toList)
  ∧ parseRobotsTxt "Disallow: /x".toList
      = [⟨"*".toList, "disallow".toList, "/x".toList⟩] := by
  refine ⟨by decide, ?_, ?_, fun rest ua => rfl, fun rest ua => rfl,
    fun rest ua => rfl, ?_, by decide⟩
  · intro line rest ua h
    simp [processLines, h]
  · intro line rest ua h
    simp [processLines, h]
  · intro content r h
    by_cases hc : content = []
    · simp [parseRobotsTxt, hc] at h
    · rw [parseRobotsTxt, if_neg hc] at h
      exact mem_processLines_directive _ _ r h

/-- Claim C4 witness: the blank-line conjunct of `parseRobotsTxt_spec`
applied to a concrete whitespace-only line. -/
theorem parseRobotsTxt_spec_witness :
    processLines ("   ".toList :: ["Disallow: /a".toList]) "*".toList
      = processLines ["Disallow: /a".toList] "*".toList :=
  parseRobotsTxt_spec.2.1 "   ".toList ["Disallow: /a".toList] "*".toList (by decide)

/-- Claim C5: liveness checks cover exactly the first
`min(internal + min(external, 10), 20)` links of the internal-then-external
check list; the result is unchanged by probe answers outside that prefix
(unchecked links are never probed and never reported broken), while the
aggregate counts still cover every link; with 30 internal and 15 external
links exactly 20 links are checked. -/
theorem analyzeLinks_sampling (allLinks : List LinkEntry)
    (probe probe2 : Str → ProbeResult) :
    (checkedLinks allLinks).length
        = min ((internalOf allLinks).length + min (externalOf allLinks).length 10) 20
  ∧ (∀ b ∈ (analyzeLinks allLinks probe).broken,
        ∃ l ∈ checkedLinks allLinks, b.url = l.url ∧ b.text = l.text)
  ∧ ((∀ l ∈ checkedLinks allLinks, probe l.url = probe2 l.url) →
        analyzeLinks allLinks probe = analyzeLinks allLinks probe2)
  ∧ (analyzeLinks allLinks probe).total = allLinks.length
  ∧ (analyzeLinks allLinks probe).internal = (internalOf allLinks).length
  ∧ (analyzeLinks allLinks probe).external = (externalOf allLinks).length
  ∧ (internalOf exampleLinks).length = 30
  ∧ (externalOf exampleLinks).length = 15
  ∧ (checkedLinks exampleLinks).length = 20 := by
  refine ⟨?_, ?_, ?_, rfl, rfl, rfl, by decide, by decide, by decide⟩
  · simp only [checkedLinks, linksToCheck, List.length_take, List.length_append]
    omega
  · intro b hb
    simp only [analyzeLinks] at hb
    rcases List.mem_filterMap.mp hb with ⟨l, hl, hf⟩
    refine ⟨l, hl, ?_⟩
    by_cases hbr : isBroken (checkLinkStatus (probe l.url)) = true
    · simp only [hbr, if_true] at hf
      cases hf
      exact ⟨rfl, rfl⟩
    · simp only [Bool.not_eq_true] at hbr
      simp [hbr] at hf
  · intro hagree
    simp only [analyzeLinks]
    congr 1
    exact List.filterMap_congr (fun l hl => by rw [hagree l hl])

/-- Claim C5 witness: two probe oracles that agree on the 20 checked links
of `exampleLinks` but disagree on its unchecked external links produce the
same analysis, via `analyzeLinks_sampling`. -/
theorem analyzeLinks_sampling_witness :
    analyzeLinks exampleLinks probeAllOk = analyzeLinks exampleLinks probeFailExternal :=
  (analyzeLinks_sampling exampleLinks probeAllOk probeFailExternal).2.2.1 (by decide)

/-- Claim C6: `checkLinkStatus` is a total function (the catch block maps a
transport failure to `{status: 0, error: message}` and an HTTP answer to
`{status, error: null}`, so it never raises), and — provided the HTTP layer
never answers with status 0 — a probed link satisfies the broken-recording
condition of `analyzeLinks` exactly when the probe answered a status of at
least 400 (recorded with that status, error null) or failed at the
transport layer (recorded with status 0 and the error message); the broken
list is exactly the checked links filtered by that condition. -/
theorem checkLinkStatus_broken_iff (r : ProbeResult)
    (hok : ∀ s, r = .ok s → s ≠ 0) :
    (isBroken (checkLinkStatus r) = true ↔
        (∃ s, r = .ok s ∧ 400 ≤ s) ∨ (∃ m, r = .fail m))
  ∧ (∀ s, r = .ok s → checkLinkStatus r = ⟨s, none⟩)
  ∧ (∀ m, r = .fail m → checkLinkStatus r = ⟨0, some m⟩)
  ∧ (∀ (links : List LinkEntry) (probe : Str → ProbeResult),
        (analyzeLinks links probe).broken
          = (checkedLinks links).filterMap (fun link =>
              let result := checkLinkStatus (probe link.url)
              if isBroken result then
                some ⟨link.url, link.text, result.status, result.error⟩
              else none)) := by
  refine ⟨?_, ?_, ?_, fun links probe => rfl⟩
  · cases r with
    | ok s =>
      have hs : s ≠ 0 := hok s rfl
      simp only [checkLinkStatus, isBroken]
      constructor
      · intro h
        left
        refine ⟨s, rfl, ?_⟩
        rcases Bool.or_eq_true_iff.mp h with h' | h'
        · exact of_decide_eq_true h'
        · exact absurd (of_decide_eq_true h') hs
      · rintro (⟨s', hs', hge⟩ | ⟨m, hm⟩)
        · cases hs'
          exact Bool.or_eq_true_iff.mpr (Or.inl (decide_eq_true hge))
        · cases hm
    | fail m =>
      simp [checkLinkStatus, isBroken]
  · rintro s rfl; rfl
  · rintro m rfl; rfl

/-- Claim C6 witness: `checkLinkStatus_broken_iff` applied to a probe that
answered HTTP 404 — recorded as broken with status 404 and a null error. -/
theorem checkLinkStatus_broken_iff_witness :
    isBroken (checkLinkStatus (ProbeResult.ok 404)) = true
      ∧ checkLinkStatus (ProbeResult.ok 404) = ⟨404, none⟩ :=
  ⟨(checkLinkStatus_broken_iff (ProbeResult.ok 404) (fun s h => by cases h; omega)).1.mpr
      (Or.inl ⟨404, rfl, by omega⟩),
   (checkLinkStatus_broken_iff (ProbeResult.ok 404) (fun s h => by cases h; omega)).2.1 404 rfl⟩

/-- Claim C7: when the root element carries an `amp` or `⚡` attribute, any
produced analysis reports `isAmp = true` (the `amphtml` link is never
consulted on this branch), `ampUrl` equal to the analyzed (normalized) URL,
and `regularUrl` equal to the canonical href resolved against that URL when
a canonical link exists, else left unresolved. -/
theorem amp_page_classification (inputUrl : Str) (d : Doc)
    (resolve : Str → Str → Option Str) (detectedAmpUrl : Option Str)
    (hamp : (htmlAttr d "amp".toList).isSome = true ∨
        (htmlAttr d "⚡".toList).isSome = true) :
    (∀ slice, analyzeWebsiteSlice inputUrl d resolve detectedAmpUrl = some slice →
        slice.isAmp = true ∧ slice.ampUrl = some (normalizeUrl inputUrl) ∧
          slice.url = normalizeUrl inputUrl)
  ∧ (d.canonicalHref = none →
        analyzeWebsiteSlice inputUrl d resolve detectedAmpUrl
          = some ⟨normalizeUrl inputUrl, true, some (normalizeUrl inputUrl), none⟩)
  ∧ (∀ href reg, d.canonicalHref = some href →
        resolve href (normalizeUrl inputUrl) = some reg →
        analyzeWebsiteSlice inputUrl d resolve detectedAmpUrl
          = some ⟨normalizeUrl inputUrl, true, some (normalizeUrl inputUrl), some reg⟩) := by
  have hA : isAmpPage d = true := by
    unfold isAmpPage
    rcases hamp with h | h
    · exact Bool.or_eq_true_iff.mpr (Or.inl h)
    · exact Bool.or_eq_true_iff.mpr (Or.inr h)
  refine ⟨?_, ?_, ?_⟩
  · intro slice hs
    simp only [analyzeWebsiteSlice, hA, if_true] at hs
    split at hs
    · split at hs
      · cases hs
        exact ⟨rfl, rfl, rfl⟩
      · cases hs
    · cases hs
      exact ⟨rfl, rfl, rfl⟩
  · intro hcan
    simp only [analyzeWebsiteSlice, hA, if_true, hcan]
  · intro href reg hcan hres
    simp only [analyzeWebsiteSlice, hA, if_true, hcan, hres]

/-- Claim C7 witness: `amp_page_classification` applied to a concrete AMP
document that also carries an `amphtml` link. -/
theorem amp_page_classification_witness :
    analyzeWebsiteSlice "example.com/page".toList ampDoc (fun href _ => some href) none
      = some ⟨normalizeUrl "example.com/page".toList, true,
          some (normalizeUrl "example.com/page".toList),
          some "https://example.com/page".toList⟩ :=
  (amp_page_classification "example.com/page".toList ampDoc (fun href _ => some href) none
      (Or.inl (by decide))).2.2 "https://example.com/page".toList
    "https://example.com/page".toList rfl rfl

/-- Claim C8: `canonicalMatches` is false when the canonical href is absent;
when present it is true exactly when resolving it against the input URL and
parsing the input URL both succeed and yield equal absolute URLs; a
malformed canonical href (failed resolution) gives false, without raising
(the function is total). -/
theorem canonicalMatches_spec (originalUrl : Str)
    (resolve : Str → Str → Option Str) (parse : Str → Option Str) :
    canonicalMatchesOf none originalUrl resolve parse = false
  ∧ (∀ href, canonicalMatchesOf (some href) originalUrl resolve parse = true ↔
        ∃ c i, resolve href originalUrl = some c ∧ parse originalUrl = some i ∧ c = i)
  ∧ (∀ href, resolve href originalUrl = none →
        canonicalMatchesOf (some href) originalUrl resolve parse = false) := by
  refine ⟨rfl, ?_, ?_⟩
  · intro href
    simp only [canonicalMatchesOf]
    cases hres : resolve href originalUrl with
    | none => simp
    | some c =>
      cases hp : parse originalUrl with
      | none => simp
      | some i => simp [beq_iff_eq]
  · intro href h
    simp only [canonicalMatchesOf, h]

/-- Claim C8 witness: `canonicalMatches_spec` applied to a resolver that
returns the href unchanged and an input URL equal to the canonical. -/
theorem canonicalMatches_spec_witness :
    canonicalMatchesOf (some "https://example.com/".toList) "https://example.com/".toList
      (fun href _ => some href) (fun u => some u) = true :=
  ((canonicalMatches_spec "https://example.com/".toList (fun href _ => some href)
      (fun u => some u)).2.1 "https://example.com/".toList).mpr
    ⟨"https://example.com/".toList, "https://example.com/".toList, rfl, rfl, rfl⟩

/-- Claim C9: an input not starting with `http` is analyzed as `https://`
prepended to it and any produced result's `url` field is that normalized
URL; an input starting with `http` is used unchanged. -/
theorem normalizeUrl_result (inputUrl : Str) (d : Doc)
    (resolve : Str → Str → Option Str) (detectedAmpUrl : Option Str) :
    (¬ "http".toList.isPrefixOf inputUrl = true →
        normalizeUrl inputUrl = "https://".toList ++ inputUrl)
  ∧ ("http".toList.isPrefixOf inputUrl = true → normalizeUrl inputUrl = inputUrl)
  ∧ (∀ slice, analyzeWebsiteSlice inputUrl d resolve detectedAmpUrl = some slice →
        slice.url = normalizeUrl inputUrl) := by
  refine ⟨?_, ?_, ?_⟩
  · intro h
    unfold normalizeUrl
    rw [if_neg h]
  · intro h
    unfold normalizeUrl
    rw [if_pos h]
  · intro slice hs
    by_cases hA : isAmpPage d = true
    · simp only [analyzeWebsiteSlice, hA, if_true] at hs
      split at hs
      · split at hs
        · cases hs; rfl
        · cases hs
      · cases hs; rfl
    · simp only [Bool.not_eq_true] at hA
      simp only [analyzeWebsiteSlice, hA, Bool.false_eq_true, if_false] at hs
      cases hs
      rfl

/-- Claim C9 witness: `normalizeUrl_result` applied to the input
`example.com`, which does not start with `http`. -/
theorem normalizeUrl_result_witness :
    normalizeUrl "example.com".toList = "https://".toList ++ "example.com".toList :=
  (normalizeUrl_result "example.com".toList plainDoc (fun _ _ => none) none).1 (by decide)

/-- Claim C10: on every successful fetch the `redirects` field of the
performance record is at most 1, and is 1 exactly when the final response
URL differs from the requested URL — never the actual number of redirects
followed. -/
theorem fetchPage_redirects_flag (url : Str) (loadTime : Nat)
    (transport : Except Str HttpResponse) (r : HttpResponse)
    (hok : transport = .ok r) (hstatus : r.status < 400) :
    ∃ out, fetchPage url loadTime transport = .ok out
      ∧ out.performance.redirects ≤ 1
      ∧ (out.performance.redirects = 1 ↔ r.responseUrl ≠ some url)
      ∧ (out.performance.redirects = 0 ↔ r.responseUrl = some url) := by
  subst hok
  simp only [fetchPage]
  rw [if_neg (by omega)]
  refine ⟨_, rfl, ?_, ?_, ?_⟩
  · by_cases h : r.responseUrl = some url <;> simp [h]
  · by_cases h : r.responseUrl = some url <;> simp [h]
  · by_cases h : r.responseUrl = some url <;> simp [h]

/-- Claim C10 witness: `fetchPage_redirects_flag` applied to a response whose
final URL differs from the requested one — the flag is 1. -/
theorem fetchPage_redirects_flag_witness :
    ∃ out, fetchPage "https://example.com".toList 10 (.ok redirectedResponse) = .ok out
      ∧ out.performance.redirects = 1 := by
  obtain ⟨out, h1, _, h3, _⟩ :=
    fetchPage_redirects_flag "https://example.com".toList 10 (.ok redirectedResponse)
      redirectedResponse rfl (by decide)
  exact ⟨out, h1, h3.mpr (by decide)⟩

end NodeSEO
